import Mathlib

/-!
Shallow embedding of the diet-state reconciliation and conversational-intent
pipeline of `assistant_bp.py` (repository `sola`).

Conventions of the embedding:
* Python parsed-JSON values are modelled by `JValue`; the Python `None` is
  `JValue.null`.  JSON numbers (Python int/float) are modelled by `ℚ`.
* The external Completion Gateway (`_call_openai` / the OpenAI client) is an
  oracle: each call site takes its reply as an `Option String` (or, for the
  diet-generation call whose reply is immediately `json.loads`-ed inside the
  same `try`, an `Option JValue`); `none` models a failed call.
* `json.loads` of the standard library is abstracted as a parameter
  `parse : String → Option JValue` (`none` models a raised exception).
* SQLAlchemy tables are lists of row structures inside `Db`; `commit` is
  modelled by returning the new `Db`.  A `*_json` diet column stores the
  serialization of a JSON value; the embedding keeps the `JValue` itself.
* Calendar dates appear in two encodings: `Date` (year/month/day, used by
  `calculate_age`) and an absolute day index `Nat` (used for row dates and
  7-day windows).  Both `today : Date` and `todayIdx : Nat` stand for the
  ambient `date.today()`; the calendar conversion between them is not used
  by any modelled computation.
-/

set_option maxRecDepth 1000000

namespace Sola

/-- A parsed JSON value (result of Python `json.loads`); `null` also models
Python `None`. -/
inductive JValue where
  | null : JValue
  | jbool : Bool → JValue
  | num : ℚ → JValue
  | str : String → JValue
  | arr : List JValue → JValue
  | obj : List (String × JValue) → JValue
deriving Repr

/-- Python truthiness of a parsed JSON value (`bool(x)`). -/
def JValue.truthy : JValue → Bool
  | .null => false
  | .jbool b => b
  | .num q => q != 0
  | .str s => s != ""
  | .arr xs => !xs.isEmpty
  | .obj fs => !fs.isEmpty

/-- `isinstance(x, dict)`. -/
def JValue.isObj : JValue → Bool
  | .obj _ => true
  | _ => false

/-- `isinstance(x, list)`. -/
def JValue.isArr : JValue → Bool
  | .arr _ => true
  | _ => false

/-- `isinstance(x, str)`. -/
def JValue.isStr : JValue → Bool
  | .str _ => true
  | _ => false

/-- Field lookup in a JSON object (`x[key]` on the association list). -/
def JValue.lookup : JValue → String → Option JValue
  | .obj fs, key => fs.lookup key
  | _, _ => none

/-- Python `d.get(key, default)` on a dict. -/
def JValue.getOrElse (v : JValue) (key : String) (dflt : JValue) : JValue :=
  match v.lookup key with
  | some x => x
  | none => dflt

/-- Python `d.get(key)` (default `None`). -/
def JValue.getOpt (v : JValue) (key : String) : JValue :=
  v.getOrElse key .null

/-- Numeric view used for Python comparisons like `x < 500`: Python `bool`
is an `int`; any other non-number raises `TypeError` (`none`). -/
def JValue.asNum : JValue → Option ℚ
  | .num q => some q
  | .jbool b => some (if b then 1 else 0)
  | _ => none

/-- Python `x == "lit"` where `x` is a parsed JSON value. -/
def JValue.eqStr : JValue → String → Bool
  | .str s, t => s == t
  | _, _ => false

/-- Python `int(q)` on a float/Fraction: truncation toward zero.
`Int.div` is T-division, so `num.div den` truncates toward zero. -/
def pyInt (q : ℚ) : Int := Int.tdiv q.num q.den

/-- Python substring test `pat in s`. -/
def strIn (pat s : String) : Bool := decide (pat.data <:+: s.data)

/-- Python `str.lower()` (ASCII case mapping; the concrete inputs exercised
by the development are already lower-case where it matters). -/
def pyLower (s : String) : String := ⟨s.data.map Char.toLower⟩

/-- Python `str.strip()`: drop leading and trailing whitespace. -/
def pyStrip (s : String) : String :=
  ⟨((s.data.dropWhile Char.isWhitespace).reverse.dropWhile Char.isWhitespace).reverse⟩

mutual

/-- Python `str(x)` of a parsed JSON value, as used inside f-strings.
Strings, `None`, booleans and integers follow Python exactly; non-integer
numbers and containers are rendered in a JSON-like form (no modelled code
path depends on their exact Python formatting). -/
def pyStr : JValue → String
  | .null => "None"
  | .jbool true => "True"
  | .jbool false => "False"
  | .num q => if q.den = 1 then toString q.num else toString q
  | .str s => s
  | .arr xs => "[" ++ pyStrList xs ++ "]"
  | .obj fs => "\x7b" ++ pyStrFields fs ++ "\x7d"

/-- Comma-separated rendering of a list of JSON values. -/
def pyStrList : List JValue → String
  | [] => ""
  | [x] => pyStr x
  | x :: xs => pyStr x ++ ", " ++ pyStrList xs

/-- Comma-separated rendering of the fields of a JSON object. -/
def pyStrFields : List (String × JValue) → String
  | [] => ""
  | [(k, v)] => k ++ ": " ++ pyStr v
  | (k, v) :: fs => k ++ ": " ++ pyStr v ++ ", " ++ pyStrFields fs

end

/-- A calendar date, for `date.today()` and `date_of_birth`. -/
structure Date where
  year : Int
  month : Nat
  day : Nat
deriving DecidableEq, Repr

/-- `calculate_age` (`assistant_bp.py`): `today.year - born.year -
((today.month, today.day) < (born.month, born.day))`, with Python tuple
comparison being lexicographic; `None` stays `None`. -/
def calculate_age (today : Date) (born : Option Date) : Option Int :=
  match born with
  | none => none
  | some b =>
      some (today.year - b.year -
        (if today.month < b.month ∨ (today.month = b.month ∧ today.day < b.day)
         then 1 else 0))

/-- Python truthiness of an optional number (`if not weight:` treats both
`None` and `0` as missing). -/
def truthyQ : Option ℚ → Bool
  | none => false
  | some q => q != 0

/-- Python truthiness of an optional integer. -/
def truthyI : Option Int → Bool
  | none => false
  | some n => n != 0

/-- A row of the `User` table (the columns read by the assistant module). -/
structure UserRow where
  id : Nat
  name : Option String
  sex : Option String
  date_of_birth : Option Date
  weight_goal : Option ℚ
  fat_mass_goal : Option ℚ
  muscle_mass_goal : Option ℚ
  start_weight : Option ℚ
deriving Repr

/-- A row of the `BodyAnalysis` table. -/
structure BodyAnalysisRow where
  user_id : Nat
  timestamp : Nat
  weight : Option ℚ
  height : Option ℚ
  fat_mass : Option ℚ
  muscle_mass : Option ℚ
  metabolism : Option ℚ
deriving Repr

/-- A row of the `Activity` table (`dateIdx` is the absolute day index). -/
structure ActivityRow where
  user_id : Nat
  dateIdx : Nat
  steps : Int
deriving Repr

/-- A row of the `WeightLog` table. -/
structure WeightLogRow where
  user_id : Nat
  dateIdx : Nat
  weight : Option ℚ
deriving Repr

/-- A row of the `Diet` table.  The four slot columns store the serialized
JSON value assigned by the code (`json.dumps(x)`); the embedding keeps the
value `x` itself.  The numeric columns store whatever Python value was
assigned (`JValue.null` models `None`/SQL NULL). -/
structure DietRow where
  id : Nat
  user_id : Nat
  dateIdx : Nat
  breakfast : JValue
  lunch : JValue
  dinner : JValue
  snack : JValue
  total_kcal : JValue
  protein : JValue
  fat : JValue
  carbs : JValue
deriving Repr

/-- The database state visible to the assistant module. -/
structure Db where
  users : List UserRow
  analyses : List BodyAnalysisRow
  activities : List ActivityRow
  weight_logs : List WeightLogRow
  diets : List DietRow
  next_diet_id : Nat
deriving Repr

/-- One turn of the session chat history (`{"role": ..., "content": ...}`;
the content can be a non-string, e.g. `None` when the Gateway failed). -/
structure Turn where
  role : String
  content : JValue
deriving Repr

/-- The Flask session state used by the module. -/
structure SessionState where
  user_id : Option Nat
  chat_history : List Turn
deriving Repr

/-- `User.query.get(user_id)`. -/
def User_query_get (db : Db) (uid : Nat) : Option UserRow :=
  db.users.find? (fun u => u.id == uid)

/-- `BodyAnalysis.query.filter_by(user_id).order_by(timestamp.desc()).first()`:
the row with the greatest timestamp (first such row on ties). -/
def latestAnalysis (db : Db) (uid : Nat) : Option BodyAnalysisRow :=
  (db.analyses.filter (fun a => a.user_id == uid)).foldl
    (fun best a =>
      match best with
      | none => some a
      | some b => if b.timestamp < a.timestamp then some a else some b) none

/-- `WeightLog.query.filter_by(user_id).order_by(date.desc()).first()`. -/
def lastWeightLog (db : Db) (uid : Nat) : Option WeightLogRow :=
  (db.weight_logs.filter (fun w => w.user_id == uid)).foldl
    (fun best w =>
      match best with
      | none => some w
      | some b => if b.dateIdx < w.dateIdx then some w else some b) none

/-- `Diet.query.filter_by(user_id).order_by(Diet.date.desc()).first()`. -/
def currentDiet (diets : List DietRow) (uid : Nat) : Option DietRow :=
  (diets.filter (fun d => d.user_id == uid)).foldl
    (fun best d =>
      match best with
      | none => some d
      | some b => if b.dateIdx < d.dateIdx then some d else some b) none

/-- The SQL aggregate `avg(Activity.steps)` over the trailing 7 days,
`or 0`, then `int(...)` (`a.dateIdx + 7 ≥ todayIdx` encodes
`Activity.date >= week_ago` without `Nat` subtraction). -/
def avgWeeklySteps (acts : List ActivityRow) (uid todayIdx : Nat) : Int :=
  let rows := acts.filter (fun a => a.user_id == uid && todayIdx ≤ a.dateIdx + 7)
  if rows.isEmpty then 0
  else pyInt (((rows.map (fun a => (a.steps : ℚ))).sum) / (rows.length : ℚ))

/-- The `profile` part of the user context. -/
structure Profile where
  name : Option String
  gender : String
  age : Option Int
  goal_weight : Option ℚ
  goal_fat : Option ℚ
  start_weight : Option ℚ
deriving Repr

/-- The `metrics` part of the user context. -/
structure Metrics where
  weight : Option ℚ
  height : Option ℚ
  fat_mass : Option ℚ
  muscle_mass : Option ℚ
  metabolism : Option ℚ
deriving Repr

/-- The `activity` part of the user context. -/
structure ActivityInfo where
  steps_today : Int
  avg_weekly_steps : Int
deriving Repr

/-- The dictionary returned by `get_full_user_context` for an existing user. -/
structure Context where
  profile : Profile
  metrics : Metrics
  activity : ActivityInfo
deriving Repr

/-- Body of `get_full_user_context` once the user row is at hand. -/
def buildContext (db : Db) (user : UserRow) (today : Date) (todayIdx : Nat) :
    Context :=
  let la := latestAnalysis db user.id
  let ta := db.activities.find? (fun a => a.user_id == user.id && a.dateIdx == todayIdx)
  { profile :=
      { name := user.name
        gender := match user.sex with
          | some s => if s = "" then "unknown" else s
          | none => "unknown"
        age := calculate_age today user.date_of_birth
        goal_weight := user.weight_goal
        goal_fat := user.fat_mass_goal
        start_weight := user.start_weight }
    metrics :=
      match la with
      | some a => ⟨a.weight, a.height, a.fat_mass, a.muscle_mass, a.metabolism⟩
      | none => ⟨none, none, none, none, none⟩
    activity :=
      { steps_today := match ta with | some a => a.steps | none => 0
        avg_weekly_steps := avgWeeklySteps db.activities user.id todayIdx } }

/-- `get_full_user_context` (`assistant_bp.py`): `none` models the empty
dict `{}` returned when the user row does not exist. -/
def get_full_user_context (db : Db) (uid : Nat) (today : Date) (todayIdx : Nat) :
    Option Context :=
  (User_query_get db uid).map (fun u => buildContext db u today todayIdx)

/-- Contribution of one list element to a slot of the meal plan text:
the body of `for item in items: if isinstance(item, dict): text += ...`. -/
def itemLine : JValue → String
  | .obj fs =>
      let it : JValue := .obj fs
      "\n- " ++ pyStr (it.getOrElse "name" (.str "Блюдо")) ++ " (" ++
        pyStr (it.getOrElse "grams" (.num 0)) ++ "г) — " ++
        pyStr (it.getOrElse "kcal" (.num 0)) ++ " ккал"
  | _ => ""

/-- Text accumulated by the item loop over one slot's list. -/
def itemsText (items : List JValue) : String :=
  items.foldl (fun acc it => acc ++ itemLine it) ""

/-- Contribution of one meal slot: emitted only when
`items and isinstance(items, list)` holds (a non-empty list). -/
def slotText (diet_plan : JValue) (key title : String) : String :=
  match diet_plan.getOrElse key (.arr []) with
  | .arr (x :: xs) => "\n**" ++ title ++ ":**" ++ itemsText (x :: xs) ++ "\n"
  | _ => ""

/-- The `mapping` dict of `format_diet_string`, in its literal (insertion)
order. -/
def mealMapping : List (String × String) :=
  [("breakfast", "🍳 Завтрак"), ("lunch", "🍲 Обед"),
   ("dinner", "🥗 Ужин"), ("snack", "🥜 Перекус")]

/-- The trailing totals line of the meal plan text. -/
def totalsLine (diet_plan : JValue) : String :=
  "\n🔥 **Итого:** " ++ pyStr (diet_plan.getOrElse "total_kcal" (.num 0)) ++
    " ккал (Б: " ++ pyStr (diet_plan.getOrElse "protein" (.num 0)) ++
    " / Ж: " ++ pyStr (diet_plan.getOrElse "fat" (.num 0)) ++
    " / У: " ++ pyStr (diet_plan.getOrElse "carbs" (.num 0)) ++ ")"

/-- `format_diet_string` (`assistant_bp.py`): renders a diet plan as chat
text; returns `""` unless the argument is a truthy dict. -/
def format_diet_string (diet_plan : JValue) : String :=
  if diet_plan.truthy && diet_plan.isObj then
    let text := "\n\n🍽 **План питания:**\n"
    let text := mealMapping.foldl (fun acc kv => acc ++ slotText diet_plan kv.1 kv.2) text
    text ++ totalsLine diet_plan
  else ""

/-- The calorie-target computation of `generate_diet_for_user`
(lines 233-262): recorded metabolism or Mifflin-St Jeor, three-tier
activity multiplier, goal adjustment with the BMR floor on the deficit. -/
structure TargetCalc where
  bmr : ℚ
  activity_factor : ℚ
  tdee : Int
  target_calories : Int
deriving DecidableEq, Repr

/-- Deterministic calorie-target computation used by the Generate pipeline
before any Gateway call. -/
def calcTargets (metabolism : Option ℚ) (gender : String) (weight height : ℚ)
    (age : Int) (avg_steps : Int) (fatGoal muscleGoal : Bool) : TargetCalc :=
  let bmr : ℚ :=
    if truthyQ metabolism then metabolism.getD 0
    else if gender = "female" then
      10 * weight + (25 / 4) * height - 5 * (age : ℚ) - 161
    else
      10 * weight + (25 / 4) * height - 5 * (age : ℚ) + 5
  let activity_factor : ℚ :=
    if avg_steps > 12000 then 31 / 20
    else if avg_steps > 7000 then 11 / 8
    else 6 / 5
  let tdee : Int := pyInt (bmr * activity_factor)
  let target : Int :=
    if fatGoal then
      let t := pyInt ((tdee : ℚ) * (17 / 20))
      if (t : ℚ) < bmr then pyInt bmr else t
    else if muscleGoal then pyInt ((tdee : ℚ) * (11 / 10))
    else tdee
  ⟨bmr, activity_factor, tdee, target⟩

/-- Python `", ".join(xs)`. -/
def joinComma : List String → String
  | [] => ""
  | [x] => x
  | x :: xs => x ++ ", " ++ joinComma xs

/-- Python `xs[-15:]`: the most recent 15 entries. -/
def pyTail15 (l : List Turn) : List Turn := l.drop (l.length - 15)

/-- Result dictionary of `generate_diet_for_user`:
`{"error", "code"}`, `{"success": False, "require_data": True, "full_text"}`,
or `{"success": True, "justification", "full_text"}`. -/
inductive GenResult where
  | errorRes : String → Nat → GenResult
  | requireData : String → GenResult
  | success : JValue → String → GenResult
deriving Repr

/-- Whether a `generate_diet_for_user` result is the success dictionary. -/
def GenResult.isSuccess : GenResult → Bool
  | .success _ _ => true
  | _ => false

/-- The `full_text` of a success result (`""` otherwise). -/
def GenResult.fullTextD : GenResult → String
  | .success _ ft => ft
  | _ => ""

/-- Outcome of `generate_diet_for_user`, together with mirrors of the
function's local variables that the specification talks about
(`gatewayCalled` records whether control reached the OpenAI diet call). -/
structure GenOutcome where
  result : GenResult
  db : Db
  sess : SessionState
  gatewayCalled : Bool
  is_estimation : Bool
  weightUsed : Option ℚ
  heightUsed : Option ℚ
  ageUsed : Option Int
  estimationNote : String
  targets : Option TargetCalc
deriving Repr

/-- The data-request message of the completeness gate (lines 202-207). -/
def missingDataMsg (missing : List String) : String :=
  "Для точного расчета мне не хватает данных: " ++ joinComma missing ++
  ".\nПожалуйста, загрузи фото с умных весов или заполни профиль.\n\n" ++
  "Если хочешь, я могу составить **базовый рацион** на основе усредненных показателей. " ++
  "Просто напиши: **«Составь базовую диету»**."

/-- The prompt warning added when population defaults were substituted. -/
def estimationNoteText : String :=
  "ВНИМАНИЕ: У пользователя нет точных данных (рост/вес/возраст). " ++
  "Использованы средние значения. В обосновании (justification) ОБЯЗАТЕЛЬНО укажи, " ++
  "что это **базовый рацион**, так как точные данные отсутствуют, и он может быть не идеален."

/-- The goal instruction string (`goal_desc_map[goal_type]`). -/
def goalInstruction (fatGoal muscleGoal : Bool) (target : Int) : String :=
  if fatGoal then
    "Сжигание жира. Дефицит калорий (Цель: " ++ toString target ++ " ккал). Высокий белок."
  else if muscleGoal then
    "Набор мышечной массы. Профицит калорий (Цель: " ++ toString target ++ " ккал)."
  else
    "Поддержание веса и тонуса (Цель: " ++ toString target ++ " ккал)."

/-- The fresh `Diet` row inserted by a successful generation. -/
def newDietRow (id uid todayIdx : Nat) (diet_plan : JValue) : DietRow :=
  { id := id
    user_id := uid
    dateIdx := todayIdx
    breakfast := diet_plan.getOrElse "breakfast" (.arr [])
    lunch := diet_plan.getOrElse "lunch" (.arr [])
    dinner := diet_plan.getOrElse "dinner" (.arr [])
    snack := diet_plan.getOrElse "snack" (.arr [])
    total_kcal := diet_plan.getOpt "total_kcal"
    protein := diet_plan.getOpt "protein"
    fat := diet_plan.getOpt "fat"
    carbs := diet_plan.getOpt "carbs" }

/-- The extended weight search of `generate_diet_for_user` (lines 176-186):
latest analysis, then last `WeightLog` entry, then profile start weight,
with Python truthiness (0 counts as missing) at each step. -/
def resolvedWeight (db : Db) (user : UserRow) (ctx : Context) : Option ℚ :=
  let w1 := ctx.metrics.weight
  let w2 := if truthyQ w1 then w1 else
    match lastWeightLog db user.id with
    | some l => l.weight
    | none => w1
  if truthyQ w2 then w2 else ctx.profile.start_weight

/-- The `missing_data` list (lines 193-197), in source order. -/
def missingList (weight0 height0 : Option ℚ) (age0 : Option Int) : List String :=
  (if truthyQ weight0 then [] else ["вес"]) ++
  (if truthyQ height0 then [] else ["рост"]) ++
  (if truthyI age0 then [] else ["возраст"])

/-- Default substitution for the weight (line 217-221). -/
def defaultedWeight (gender : String) (w0 : Option ℚ) : ℚ :=
  if truthyQ w0 then w0.getD 0 else if gender ≠ "female" then 70 else 60

/-- Default substitution for the height (line 223-227). -/
def defaultedHeight (gender : String) (h0 : Option ℚ) : ℚ :=
  if truthyQ h0 then h0.getD 0 else if gender ≠ "female" then 175 else 165

/-- Default substitution for the age (line 229-231). -/
def defaultedAge (a0 : Option Int) : Int :=
  if truthyI a0 then a0.getD 0 else 30

/-- The portion of `generate_diet_for_user` from the OpenAI diet call to the
returned dictionary (lines 318-393): defensive checks on the parsed reply,
delete-then-insert of the `Diet` row, history update.  `resp?` is the parsed
reply (`none` models a failed call or a `json.loads` failure, both caught by
the surrounding `try` and reported with the exception text, here a fixed
placeholder). -/
def processCore (db : Db) (sess : SessionState) (uid todayIdx : Nat)
    (goal_instruction : String) (resp? : Option JValue) :
    GenResult × Db × SessionState :=
  match resp? with
  | none =>
      ⟨.errorRes "OpenAI call or JSON decode failed" 500, db, sess⟩
  | some data =>
      if !data.isObj then
        -- `data.get("diet_plan")` raises AttributeError, caught below
        ⟨.errorRes "AttributeError" 500, db, sess⟩
      else
        let diet_plan := data.getOpt "diet_plan"
        let justification :=
          data.getOrElse "justification"
            (.str ("Рацион составлен для цели: " ++ goal_instruction))
        if !diet_plan.truthy then
          ⟨.errorRes "Сгенерирован некорректный план." 500, db, sess⟩
        else if !diet_plan.isObj then
          -- `diet_plan.get('total_kcal', 0)` raises AttributeError
          ⟨.errorRes "AttributeError" 500, db, sess⟩
        else
          match (diet_plan.getOrElse "total_kcal" (.num 0)).asNum with
          | none =>
              -- `... < 500` raises TypeError
              ⟨.errorRes "TypeError" 500, db, sess⟩
          | some kcal =>
              if kcal < 500 then
                ⟨.errorRes "Сгенерирован некорректный план." 500, db, sess⟩
              else
                -- delete-then-insert for (user, today), then commit
                let kept := db.diets.filter
                  (fun d => !(d.user_id == uid && d.dateIdx == todayIdx))
                let row := newDietRow db.next_diet_id uid todayIdx diet_plan
                let db' := { db with diets := kept ++ [row],
                                     next_diet_id := db.next_diet_id + 1 }
                let menu := format_diet_string diet_plan
                let finalText := pyStr justification ++ "\n" ++ menu
                let hist := pyTail15 (sess.chat_history ++ [⟨"assistant", .str finalText⟩])
                let sess' : SessionState := ⟨sess.user_id, hist⟩
                -- `send_user_notification` catches internally and cannot raise;
                -- `justification[:40]` in its body raises TypeError unless the
                -- justification is sliceable (str or list)
                match justification with
                | .str _ => ⟨.success justification finalText, db', sess'⟩
                | .arr _ => ⟨.success justification finalText, db', sess'⟩
                | _ => ⟨.errorRes "TypeError" 500, db', sess'⟩

/-- `processCore` packaged as a `GenOutcome`, with the mirrors of the local
variables that were live at the Gateway call. -/
def processDietResponse (db : Db) (sess : SessionState) (uid todayIdx : Nat)
    (goal_instruction estimation_note : String) (is_estimation : Bool)
    (weight height : ℚ) (age : Int) (tc : TargetCalc)
    (resp? : Option JValue) : GenOutcome :=
  let c := processCore db sess uid todayIdx goal_instruction resp?
  ⟨c.1, c.2.1, c.2.2, true, is_estimation, some weight, some height, some age,
    estimation_note, some tc⟩

/-- `generate_diet_for_user` (`assistant_bp.py`): user lookup, extended
data search, data-completeness gate, population defaults, calorie targets,
then the Gateway call and persistence via `processDietResponse`. -/
def generate_diet_for_user (db : Db) (sess : SessionState) (user_id : Nat)
    (force_basic : Bool) (today : Date) (todayIdx : Nat)
    (resp? : Option JValue) : GenOutcome :=
  match User_query_get db user_id with
  | none => ⟨.errorRes "User not found" 404, db, sess, false, false, none, none, none, "", none⟩
  | some user =>
    let ctx := buildContext db user today todayIdx
    let weight0 := resolvedWeight db user ctx
    let height0 := ctx.metrics.height
    let age0 := ctx.profile.age
    let gender := ctx.profile.gender
    -- data-completeness gate
    let missing := missingList weight0 height0 age0
    if ¬ missing.isEmpty ∧ ¬ force_basic then
      let msg := missingDataMsg missing
      let hist := pyTail15 (sess.chat_history ++ [⟨"assistant", .str msg⟩])
      ⟨.requireData msg, db, ⟨sess.user_id, hist⟩, false, false, none, none, none, "", none⟩
    else
      -- population defaults (only reachable with force_basic or full data)
      let is_estimation := !(truthyQ weight0 && truthyQ height0 && truthyI age0)
      let weight := defaultedWeight gender weight0
      let height := defaultedHeight gender height0
      let age := defaultedAge age0
      let tc := calcTargets ctx.metrics.metabolism gender weight height age
        ctx.activity.avg_weekly_steps (truthyQ user.fat_mass_goal) (truthyQ user.muscle_mass_goal)
      let goal_instruction :=
        goalInstruction (truthyQ user.fat_mass_goal) (truthyQ user.muscle_mass_goal)
          tc.target_calories
      let estimation_note := if is_estimation then estimationNoteText else ""
      processDietResponse db sess user.id todayIdx goal_instruction estimation_note
        is_estimation weight height age tc resp?

/-- State and per-call results of a sequence of Generate calls for one
user and one date. -/
structure SeqOutcome where
  db : Db
  sess : SessionState
  results : List GenResult
deriving Repr

/-- Iterated `generate_diet_for_user` for one user and one date, one call
per Gateway reply in the list. -/
def generateSeq (db : Db) (sess : SessionState) (user_id : Nat)
    (force_basic : Bool) (today : Date) (todayIdx : Nat) :
    List (Option JValue) → SeqOutcome
  | [] => ⟨db, sess, []⟩
  | r :: rs =>
      let out := generate_diet_for_user db sess user_id force_basic today todayIdx r
      let rest := generateSeq out.db out.sess user_id force_basic today todayIdx rs
      ⟨rest.db, rest.sess, out.result :: rest.results⟩

/-- The oracles standing for the external collaborators of one request:
the Gateway replies at each call site (`none` = failed call) and the
`json.loads` parser (`none` = raised). -/
structure Gateway where
  classify : Option String
  dieta : Option String
  metricsReply : Option String
  generalReply : Option String
  dietGen : Option JValue
  parse : String → Option JValue

/-- `classifier_text = _call_openai(...) or "Общее"` (both `None` and the
empty string fall back). -/
def classifierText (r : Option String) : String :=
  match r with
  | none => "Общее"
  | some s => if s = "" then "Общее" else s

/-- The four scenarios of `handle_chat`. -/
inductive Scenario where
  | generation
  | dieta
  | metrics
  | general
deriving DecidableEq, Repr

/-- The `if/elif` dispatch of `handle_chat` on the classifier reply
(lines 433, 454, 529): substring checks, in order. -/
def routeOf (ct : String) : Scenario :=
  if strIn "Генерация" ct || strIn "Generat" ct then .generation
  else if strIn "Диета" ct then .dieta
  else if strIn "Показатели" ct then .metrics
  else .general

/-- The forced-basic-diet keyword scan of the Generation scenario. -/
def forceBasicOf (user_message : String) : Bool :=
  ["базов", "прост", "все равно", "basic", "любую", "без весов"].any
    (fun kw => strIn kw (pyLower user_message))

/-- An HTTP response `(jsonify({"role": r, "content": c}), status)`. -/
structure HttpResp where
  status : Nat
  role : String
  content : JValue
deriving Repr

/-- Outcome of one chat request.  `resp = .error e` models an uncaught
Python exception propagating out of the handler (Flask would answer 500). -/
structure ChatOutcome where
  resp : Except String HttpResp
  db : Db
  sess : SessionState
deriving Repr

/-- Second parse pass on a `diet_plan` that arrived as a string
(lines 494-498): `json.loads` it, `None` on failure; non-strings pass
through unchanged. -/
def secondPass (parse : String → Option JValue) : JValue → JValue
  | .str t => (parse t).getD .null
  | v => v

/-- The in-place overwrite of the current `Diet` row by an update
(lines 501-508): every slot and total comes from the new plan. -/
def applyPlan (d : DietRow) (plan : JValue) : DietRow :=
  { d with
    breakfast := plan.getOrElse "breakfast" (.arr [])
    lunch := plan.getOrElse "lunch" (.arr [])
    dinner := plan.getOrElse "dinner" (.arr [])
    snack := plan.getOrElse "snack" (.arr [])
    total_kcal := plan.getOpt "total_kcal"
    protein := plan.getOpt "protein"
    fat := plan.getOpt "fat"
    carbs := plan.getOpt "carbs" }

/-- Commit of the in-place update: the current row (identified by its
primary key) is overwritten, all other rows are untouched. -/
def updateCurrent (db : Db) (rowId : Nat) (plan : JValue) : Db :=
  let diets' := db.diets.map (fun d => if d.id == rowId then applyPlan d plan else d)
  { db with diets := diets' }

/-- The ModifyOrAsk scenario of `handle_chat` (lines 454-524), given the
locally updated history `hist`. -/
def handleDieta (db : Db) (sess : SessionState) (uid : Nat) (hist : List Turn)
    (resp? : Option String) (parse : String → Option JValue) : ChatOutcome :=
  match currentDiet db.diets uid with
  | none =>
      ⟨.ok ⟨200, "ai", .str ("У вас еще нет активной диеты. Напишите " ++
        "\x27Составь рацион\x27, чтобы начать!")⟩, db, sess⟩
  | some row =>
      match resp? with
      | none => ⟨.ok ⟨200, "ai", .str "ИИ не ответил."⟩, db, sess⟩
      | some s =>
          if s = "" then ⟨.ok ⟨200, "ai", .str "ИИ не ответил."⟩, db, sess⟩
          else
            match parse s with
            | some (.obj fs) =>
                let respData : JValue := .obj fs
                let action := respData.getOpt "action"
                let aiText := respData.getOrElse "text" (.str "Готово.")
                if action.eqStr "update" then
                  let newPlan := secondPass parse (respData.getOpt "diet_plan")
                  if newPlan.truthy && newPlan.isObj then
                    let db' := updateCurrent db row.id newPlan
                    let menu := format_diet_string newPlan
                    let finalText : JValue := .str (pyStr aiText ++ "\n" ++ menu)
                    let hist' := hist ++ [⟨"assistant", finalText⟩]
                    ⟨.ok ⟨200, "ai", finalText⟩, db', ⟨sess.user_id, hist'⟩⟩
                  else
                    let finalText : JValue :=
                      .str "Не удалось изменить план. Попробуйте переформулировать."
                    let hist' := hist ++ [⟨"assistant", finalText⟩]
                    ⟨.ok ⟨200, "ai", finalText⟩, db, ⟨sess.user_id, hist'⟩⟩
                else
                  let hist' := hist ++ [⟨"assistant", aiText⟩]
                  ⟨.ok ⟨200, "ai", aiText⟩, db, ⟨sess.user_id, hist'⟩⟩
            | _ =>
                -- json.loads raised, or `resp_data.get` raised on a non-dict:
                -- both are caught by the scenario's `except` clause
                ⟨.ok ⟨200, "ai", .str "Произошла ошибка при обработке запроса."⟩, db, sess⟩

/-- `handle_chat` (`assistant_bp.py`, `POST /api/assistant/chat`). -/
def handle_chat (db : Db) (sess : SessionState) (gw : Gateway) (message : String)
    (today : Date) (todayIdx : Nat) : ChatOutcome :=
  let msg := pyStrip message
  if msg = "" then ⟨.ok ⟨400, "error", .str "Пустое сообщение"⟩, db, sess⟩
  else
    match sess.user_id with
    | none => ⟨.ok ⟨401, "ai", .str "Пожалуйста, авторизуйтесь."⟩, db, sess⟩
    | some uid =>
        -- local history: append the user turn, keep the last 15
        let hist := pyTail15 (sess.chat_history ++ [⟨"user", .str msg⟩])
        let ct := classifierText gw.classify
        let ctx := get_full_user_context db uid today todayIdx
        match routeOf ct with
        | .generation =>
            let g := generate_diet_for_user db sess uid (forceBasicOf msg) today todayIdx gw.dietGen
            match g.result with
            | .success _ ft => ⟨.ok ⟨200, "ai", .str ft⟩, g.db, g.sess⟩
            | .requireData m => ⟨.ok ⟨200, "ai", .str m⟩, g.db, g.sess⟩
            | .errorRes m _ => ⟨.ok ⟨200, "ai", .str ("Ошибка генерации: " ++ m)⟩, g.db, g.sess⟩
        | .dieta => handleDieta db sess uid hist gw.dieta gw.parse
        | .metrics =>
            match latestAnalysis db uid with
            | none =>
                ⟨.ok ⟨200, "ai", .str "Нет данных анализа тела. Загрузите фото с весов!"⟩,
                  db, sess⟩
            | some _ =>
                let content : JValue := match gw.metricsReply with
                  | some r => .str r
                  | none => .null
                let hist' := hist ++ [⟨"assistant", content⟩]
                ⟨.ok ⟨200, "ai", content⟩, db, ⟨sess.user_id, hist'⟩⟩
        | .general =>
            match ctx with
            | none =>
                -- `user_context['profile']` on the empty dict raises KeyError
                ⟨.error "KeyError", db, sess⟩
            | some _ =>
                let content : JValue := match gw.generalReply with
                  | some r => .str r
                  | none => .null
                let hist' := hist ++ [⟨"assistant", content⟩]
                ⟨.ok ⟨200, "ai", content⟩, db, ⟨sess.user_id, hist'⟩⟩

/-! ## Helper lemmas -/

/-- Substring containment as a proposition. -/
def sIn (pat s : String) : Prop := pat.data <:+: s.data

theorem strIn_iff_sIn (pat s : String) : strIn pat s = true ↔ sIn pat s := by
  simp [strIn, sIn]

theorem string_data_append (s t : String) : (s ++ t).data = s.data ++ t.data := rfl

theorem sIn_refl (s : String) : sIn s s := List.infix_refl _

theorem sIn_append_right {pat s : String} (t : String) (h : sIn pat s) :
    sIn pat (s ++ t) := by
  rcases h with ⟨u, v, huv⟩
  exact ⟨u, v ++ t.data, by rw [string_data_append, ← huv]; simp⟩

theorem sIn_append_left {pat s : String} (t : String) (h : sIn pat s) :
    sIn pat (t ++ s) := by
  rcases h with ⟨u, v, huv⟩
  exact ⟨t.data ++ u, v, by rw [string_data_append, ← huv]; simp⟩

theorem sIn_foldl_acc {α : Type} (f : α → String) {pat acc : String}
    (l : List α) (h : sIn pat acc) :
    sIn pat (l.foldl (fun a i => a ++ f i) acc) := by
  induction l generalizing acc with
  | nil => exact h
  | cons y ys ih => exact ih (sIn_append_right _ h)

theorem sIn_foldl {α : Type} (f : α → String) {x : α} (l : List α) (acc : String)
    (hx : x ∈ l) :
    sIn (f x) (l.foldl (fun a i => a ++ f i) acc) := by
  induction l generalizing acc with
  | nil => cases hx
  | cons y ys ih =>
      rcases List.mem_cons.mp hx with h | h
      · subst h
        exact sIn_foldl_acc f ys (sIn_append_left acc (sIn_refl (f x)))
      · exact ih (acc ++ f y) h

theorem itemLine_isObj {it : JValue} (h : it.isObj = true) :
    itemLine it =
      "\n- " ++ pyStr (it.getOrElse "name" (.str "Блюдо")) ++ " (" ++
        pyStr (it.getOrElse "grams" (.num 0)) ++ "г) — " ++
        pyStr (it.getOrElse "kcal" (.num 0)) ++ " ккал" := by
  cases it <;> first
    | rfl
    | simp [JValue.isObj] at h

/-- Each dict item's rendered line is contained in its slot's text. -/
theorem sIn_itemLine_itemsText {it : JValue} {items : List JValue}
    (hx : it ∈ items) : sIn (itemLine it) (itemsText items) :=
  sIn_foldl itemLine items "" hx

/-- The slot section for a non-empty list of items. -/
theorem slotText_of_lookup {fs : List (String × JValue)} {key : String}
    (title : String) {x : JValue} {xs : List JValue}
    (h : fs.lookup key = some (.arr (x :: xs))) :
    slotText (.obj fs) key title =
      "\n**" ++ title ++ ":**" ++ itemsText (x :: xs) ++ "\n" := by
  simp [slotText, JValue.getOrElse, JValue.lookup, h]

/-- Unfolding of `format_diet_string` on a non-empty dict: the intro text,
then the four slots in the fixed order breakfast, lunch, dinner, snack,
then the totals line. -/
theorem format_diet_string_obj {fs : List (String × JValue)} (h : fs ≠ []) :
    format_diet_string (.obj fs) =
      "\n\n🍽 **План питания:**\n" ++
      slotText (.obj fs) "breakfast" "🍳 Завтрак" ++
      slotText (.obj fs) "lunch" "🍲 Обед" ++
      slotText (.obj fs) "dinner" "🥗 Ужин" ++
      slotText (.obj fs) "snack" "🥜 Перекус" ++
      totalsLine (.obj fs) := by
  cases fs with
  | nil => exact absurd rfl h
  | cons p ps =>
      simp [format_diet_string, JValue.truthy, JValue.isObj, mealMapping, List.foldl]

theorem sIn_trans {a b c : String} (h₁ : sIn a b) (h₂ : sIn b c) : sIn a c :=
  List.IsInfix.trans h₁ h₂

theorem sIn_last_two (a b c : String) : sIn (b ++ c) ((a ++ b) ++ c) :=
  ⟨a.data, [], by simp [string_data_append]⟩

theorem sIn_front_pair (x c d : String) : sIn (x ++ c) (x ++ (c ++ d)) :=
  ⟨[], d.data, by simp [string_data_append]⟩

/-- The item's name is contained in its rendered line. -/
theorem sIn_name_itemLine {it : JValue} (h : it.isObj = true) :
    sIn (pyStr (it.getOrElse "name" (.str "Блюдо"))) (itemLine it) := by
  rw [itemLine_isObj h]
  apply sIn_append_right
  apply sIn_append_right
  apply sIn_append_right
  apply sIn_append_right
  apply sIn_append_right
  exact sIn_append_left _ (sIn_refl _)

/-- The item's kcal figure, with its unit, is contained in its rendered line. -/
theorem sIn_kcal_itemLine {it : JValue} (h : it.isObj = true) :
    sIn (pyStr (it.getOrElse "kcal" (.num 0)) ++ " ккал") (itemLine it) := by
  rw [itemLine_isObj h]
  exact sIn_last_two _ _ _

/-- Containment in the fold over the four meal-slot sections. -/
theorem sIn_slot_format {fs : List (String × JValue)} {key title p : String}
    (hmem : (key, title) ∈ mealMapping) (hfs : fs ≠ [])
    (h : sIn p (slotText (.obj fs) key title)) :
    sIn p (format_diet_string (.obj fs)) := by
  rw [format_diet_string_obj hfs]
  apply sIn_append_right
  simp only [mealMapping, List.mem_cons, List.not_mem_nil, or_false, Prod.mk.injEq] at hmem
  rcases hmem with ⟨hk, ht⟩ | ⟨hk, ht⟩ | ⟨hk, ht⟩ | ⟨hk, ht⟩
  · subst hk; subst ht
    apply sIn_append_right
    apply sIn_append_right
    apply sIn_append_right
    exact sIn_append_left _ h
  · subst hk; subst ht
    apply sIn_append_right
    apply sIn_append_right
    exact sIn_append_left _ h
  · subst hk; subst ht
    apply sIn_append_right
    exact sIn_append_left _ h
  · subst hk; subst ht
    exact sIn_append_left _ h

/-- Containment of a pattern in a rendered slot section. -/
theorem sIn_slotSection {p title : String} {x : JValue} {xs : List JValue}
    (h : sIn p (itemsText (x :: xs))) :
    sIn p ("\n**" ++ title ++ ":**" ++ itemsText (x :: xs) ++ "\n") := by
  apply sIn_append_right
  exact sIn_append_left _ h

/-- Python truncation agrees with the floor on non-negative arguments. -/
theorem pyInt_eq_floor {q : ℚ} (h : 0 ≤ q) : pyInt q = ⌊q⌋ := by
  unfold pyInt
  rw [Rat.floor_def]
  exact Int.tdiv_eq_ediv (Rat.num_nonneg.mpr h) (Int.ofNat_nonneg _)

/-- Full evaluation of the calorie-target computation on the reference
inputs: male, 80 kg, 180 cm, age 30, 8000 average steps, fat-loss goal,
no recorded metabolism. -/
theorem calcTargets_male_example :
    calcTargets none "male" 80 180 30 8000 true false = ⟨1780, 11 / 8, 2447, 2079⟩ := by
  have hmf : ("male" = "female") = False := by decide
  have h1 : pyInt ((4895 : ℚ) / 2) = 2447 := by
    rw [pyInt_eq_floor (by norm_num), Int.floor_eq_iff]
    norm_num
  have h2 : pyInt ((41599 : ℚ) / 20) = 2079 := by
    rw [pyInt_eq_floor (by norm_num), Int.floor_eq_iff]
    norm_num
  unfold calcTargets
  norm_num [truthyQ, hmf, h1]
  norm_num [h2]

/-- The soft-failure reply of the update branch. -/
def softFailMsg : String := "Не удалось изменить план. Попробуйте переформулировать."

/-- Unfolding of the ModifyOrAsk scenario when the structured response is a
dict with `action = "update"` and the (possibly re-parsed) plan is a
non-empty dict: the current row is overwritten field-wise from the plan. -/
theorem handleDieta_update_success {db : Db} {sess : SessionState} {uid : Nat}
    {hist : List Turn} {s : String} {parse : String → Option JValue}
    {row : DietRow} {fs : List (String × JValue)} {pfs : List (String × JValue)}
    (hrow : currentDiet db.diets uid = some row)
    (hs : s ≠ "")
    (hparse : parse s = some (.obj fs))
    (haction : fs.lookup "action" = some (.str "update"))
    (hplan : secondPass parse ((JValue.obj fs).getOpt "diet_plan") = .obj pfs)
    (hne : pfs ≠ []) :
    handleDieta db sess uid hist (some s) parse =
      ⟨.ok ⟨200, "ai", .str (pyStr ((JValue.obj fs).getOrElse "text" (.str "Готово.")) ++
          "\n" ++ format_diet_string (.obj pfs))⟩,
       updateCurrent db row.id (.obj pfs),
       ⟨sess.user_id, hist ++ [⟨"assistant",
          .str (pyStr ((JValue.obj fs).getOrElse "text" (.str "Готово.")) ++
            "\n" ++ format_diet_string (.obj pfs))⟩]⟩⟩ := by
  have haction' : (JValue.obj fs).getOpt "action" = JValue.str "update" := by
    simp [JValue.getOpt, JValue.getOrElse, JValue.lookup, haction]
  have hs' : (s = "") = False := eq_false hs
  have htr : ((JValue.obj pfs).truthy && (JValue.obj pfs).isObj) = true := by
    cases pfs with
    | nil => exact absurd rfl hne
    | cons p ps => rfl
  simp only [handleDieta, hrow, hparse, hs', if_false, haction', hplan, htr,
    JValue.eqStr, if_true]
  simp

/-- Unfolding of the ModifyOrAsk scenario when the response is a dict with
`action = "update"` but the plan, after the second parse pass, is not a
non-empty dict: soft failure, store untouched. -/
theorem handleDieta_update_softfail {db : Db} {sess : SessionState} {uid : Nat}
    {hist : List Turn} {s : String} {parse : String → Option JValue}
    {row : DietRow} {fs : List (String × JValue)}
    (hrow : currentDiet db.diets uid = some row)
    (hs : s ≠ "")
    (hparse : parse s = some (.obj fs))
    (haction : fs.lookup "action" = some (.str "update"))
    (hplan : ((secondPass parse ((JValue.obj fs).getOpt "diet_plan")).truthy &&
      (secondPass parse ((JValue.obj fs).getOpt "diet_plan")).isObj) = false) :
    handleDieta db sess uid hist (some s) parse =
      ⟨.ok ⟨200, "ai", .str softFailMsg⟩, db,
       ⟨sess.user_id, hist ++ [⟨"assistant", .str softFailMsg⟩]⟩⟩ := by
  have haction' : (JValue.obj fs).getOpt "action" = JValue.str "update" := by
    simp [JValue.getOpt, JValue.getOrElse, JValue.lookup, haction]
  have hs' : (s = "") = False := eq_false hs
  simp only [handleDieta, hrow, hparse, hs', if_false, haction', hplan,
    JValue.eqStr, if_true]
  simp [softFailMsg]

/-- A successful run of the post-Gateway stage implies the reply was a
parsed value and the diet table became: everything but the (user, today)
rows, plus the one freshly inserted row built from the reply's plan. -/
theorem processCore_success_shape (db : Db) (sess : SessionState)
    (uid tIdx : Nat) (gi : String) (r : Option JValue)
    (h : (processCore db sess uid tIdx gi r).1.isSuccess = true) :
    ∃ data : JValue, r = some data ∧
      (processCore db sess uid tIdx gi r).2.1.diets =
        db.diets.filter (fun d => !(d.user_id == uid && d.dateIdx == tIdx)) ++
        [newDietRow db.next_diet_id uid tIdx (data.getOpt "diet_plan")] := by
  cases r with
  | none => simp [processCore, GenResult.isSuccess] at h
  | some data =>
      refine ⟨data, rfl, ?_⟩
      simp only [processCore] at h ⊢
      split at h
      · simp [GenResult.isSuccess] at h
      · rename_i hobj
        rw [if_neg hobj]
        split at h
        · simp [GenResult.isSuccess] at h
        · rename_i htr
          rw [if_neg htr]
          split at h
          · simp [GenResult.isSuccess] at h
          · rename_i hpo
            rw [if_neg hpo]
            split at h
            · simp [GenResult.isSuccess] at h
            · split at h
              · simp [GenResult.isSuccess] at h
              · rename_i hlt
                rw [if_neg hlt]
                split at h
                · rename_i a hjeq
                  simp only [hjeq]
                · rename_i a hjeq
                  simp only [hjeq]
                · simp [GenResult.isSuccess] at h

/-- Lifting of the success shape through the data-resolution stage of
`generate_diet_for_user`. -/
theorem generate_success_shape (db : Db) (sess : SessionState) (uid : Nat)
    (force : Bool) (today : Date) (tIdx : Nat) (r : Option JValue)
    (h : (generate_diet_for_user db sess uid force today tIdx r).result.isSuccess = true) :
    ∃ data : JValue, r = some data ∧
      (generate_diet_for_user db sess uid force today tIdx r).db.diets =
        db.diets.filter (fun d => !(d.user_id == uid && d.dateIdx == tIdx)) ++
        [newDietRow db.next_diet_id uid tIdx (data.getOpt "diet_plan")] := by
  unfold generate_diet_for_user at h ⊢
  cases hU : User_query_get db uid with
  | none =>
      rw [hU] at h
      simp [GenResult.isSuccess] at h
  | some user =>
      rw [hU] at h
      have huid : user.id = uid := by
        have h2 := List.find?_some hU
        simpa using h2
      simp only [huid] at h ⊢
      split at h
      · simp [GenResult.isSuccess] at h
      · rename_i hgate
        rw [if_neg hgate]
        simp only [processDietResponse] at h ⊢
        obtain ⟨data, hr, hdiets⟩ := processCore_success_shape _ _ _ _ _ _ h
        exact ⟨data, hr, hdiets⟩

/-- Filtering for the deleted key after a delete-then-insert leaves exactly
the inserted row. -/
theorem filter_delete_insert (l : List DietRow) (p : DietRow → Bool)
    (row : DietRow) (hrow : p row = true) :
    ((l.filter (fun d => !(p d)) ++ [row]).filter p) = [row] := by
  rw [List.filter_append, List.filter_filter]
  simp [hrow]

/-- A concrete stored diet row used by the witnesses below. -/
def wRow : DietRow :=
  ⟨7, 1, 100, .arr [.str "A"], .arr [], .arr [], .arr [], .num 1000, .null, .null, .null⟩

/-- A concrete database holding exactly `wRow`, used by the witnesses. -/
def wDb : Db := ⟨[], [], [], [], [wRow], 8⟩

/-! ## Claim theorems -/

/-- C5: in the ModifyOrAsk scenario, a structured response whose `action`
is "answer" leaves the database — hence the persisted DietRecord — exactly
as it was, and the response's `text` field is returned as the reply. -/
theorem answer_never_mutates (db : Db) (sess : SessionState) (uid : Nat)
    (hist : List Turn) (s : String) (parse : String → Option JValue)
    (row : DietRow) (fs : List (String × JValue)) (t : JValue)
    (hrow : currentDiet db.diets uid = some row)
    (hs : s ≠ "")
    (hparse : parse s = some (.obj fs))
    (haction : fs.lookup "action" = some (.str "answer"))
    (htext : fs.lookup "text" = some t) :
    handleDieta db sess uid hist (some s) parse =
      ⟨.ok ⟨200, "ai", t⟩, db, ⟨sess.user_id, hist ++ [⟨"assistant", t⟩]⟩⟩ := by
  have haction' : (JValue.obj fs).getOpt "action" = JValue.str "answer" := by
    simp [JValue.getOpt, JValue.getOrElse, JValue.lookup, haction]
  have htext' : (JValue.obj fs).getOrElse "text" (.str "Готово.") = t := by
    simp [JValue.getOrElse, JValue.lookup, htext]
  have hs' : (s = "") = False := eq_false hs
  simp only [handleDieta, hrow, hparse, hs', if_false, haction', htext',
    JValue.eqStr]
  simp

/-- Witness for C5: a concrete answer-shaped response leaves the concrete
store unchanged and replies with the `text` field. -/
theorem answer_never_mutates_witness :
    handleDieta wDb ⟨some 1, []⟩ 1 [] (some "RESP")
      (fun _ => some (.obj [("action", .str "answer"), ("text", .str "Курица на ужин.")])) =
      ⟨.ok ⟨200, "ai", .str "Курица на ужин."⟩, wDb,
       ⟨some 1, [⟨"assistant", .str "Курица на ужин."⟩]⟩⟩ :=
  answer_never_mutates wDb ⟨some 1, []⟩ 1 [] "RESP"
    (fun _ => some (.obj [("action", .str "answer"), ("text", .str "Курица на ужин.")]))
    wRow [("action", .str "answer"), ("text", .str "Курица на ужин.")]
    (.str "Курица на ужин.") rfl (by decide) rfl rfl rfl

/-- C1: in the ModifyOrAsk scenario with an update-shaped response whose
`diet_plan` is a string, a second parse pass is attempted on that field:
if the second pass does not yield an object, the store is left unchanged
and the reply is the soft-failure message; if it yields a (non-empty)
object, the update proceeds with the re-parsed plan. -/
theorem modify_update_string_plan_second_parse (db : Db) (sess : SessionState)
    (uid : Nat) (hist : List Turn) (s : String) (parse : String → Option JValue)
    (row : DietRow) (fs : List (String × JValue)) (tstr : String)
    (hrow : currentDiet db.diets uid = some row)
    (hs : s ≠ "")
    (hparse : parse s = some (.obj fs))
    (haction : fs.lookup "action" = some (.str "update"))
    (hdp : fs.lookup "diet_plan" = some (.str tstr)) :
    (((parse tstr).getD .null).isObj = false →
      handleDieta db sess uid hist (some s) parse =
        ⟨.ok ⟨200, "ai", .str softFailMsg⟩, db,
         ⟨sess.user_id, hist ++ [⟨"assistant", .str softFailMsg⟩]⟩⟩) ∧
    (∀ pfs : List (String × JValue), parse tstr = some (.obj pfs) → pfs ≠ [] →
      handleDieta db sess uid hist (some s) parse =
        ⟨.ok ⟨200, "ai", .str (pyStr ((JValue.obj fs).getOrElse "text" (.str "Готово.")) ++
            "\n" ++ format_diet_string (.obj pfs))⟩,
         updateCurrent db row.id (.obj pfs),
         ⟨sess.user_id, hist ++ [⟨"assistant",
            .str (pyStr ((JValue.obj fs).getOrElse "text" (.str "Готово.")) ++
              "\n" ++ format_diet_string (.obj pfs))⟩]⟩⟩) := by
  have hdp' : (JValue.obj fs).getOpt "diet_plan" = JValue.str tstr := by
    simp [JValue.getOpt, JValue.getOrElse, JValue.lookup, hdp]
  constructor
  · intro hfail
    apply handleDieta_update_softfail hrow hs hparse haction
    rw [hdp']
    simp [secondPass, hfail]
  · intro pfs hsecond hne
    apply handleDieta_update_success hrow hs hparse haction _ hne
    rw [hdp']
    simp [secondPass, hsecond]

/-- Witness for C1: a concrete update response whose `diet_plan` string is
not parseable leaves the store unchanged and soft-fails. -/
theorem modify_update_string_plan_second_parse_witness :
    handleDieta wDb ⟨some 1, []⟩ 1 [] (some "RESP")
      (fun q => if q = "RESP" then
        some (.obj [("action", .str "update"), ("text", .str "Ок"),
          ("diet_plan", .str "not-json-or-wrong-shape")])
        else none) =
      ⟨.ok ⟨200, "ai", .str softFailMsg⟩, wDb,
       ⟨some 1, [⟨"assistant", .str softFailMsg⟩]⟩⟩ :=
  (modify_update_string_plan_second_parse wDb ⟨some 1, []⟩ 1 [] "RESP"
    (fun q => if q = "RESP" then
      some (.obj [("action", .str "update"), ("text", .str "Ок"),
        ("diet_plan", .str "not-json-or-wrong-shape")])
      else none)
    wRow
    [("action", .str "update"), ("text", .str "Ок"),
      ("diet_plan", .str "not-json-or-wrong-shape")]
    "not-json-or-wrong-shape" rfl (by decide) rfl rfl rfl).1 rfl

/-- C10: the presentation formatter is a pure total function: the empty
plan `{}` renders as the empty string; on a populated plan every dict item
of every slot contributes its name and its kcal figure to the output; the
output carries the totals line and renders the four slots in the fixed
order breakfast, lunch, dinner, snack. -/
theorem formatter_total_and_complete :
    format_diet_string (.obj []) = "" ∧
    (∀ (fs : List (String × JValue)) (key title : String)
        (items : List JValue) (it : JValue),
      (key, title) ∈ mealMapping →
      fs.lookup key = some (.arr items) →
      it ∈ items → it.isObj = true →
      sIn (pyStr (it.getOrElse "name" (.str "Блюдо"))) (format_diet_string (.obj fs)) ∧
      sIn (pyStr (it.getOrElse "kcal" (.num 0)) ++ " ккал") (format_diet_string (.obj fs))) ∧
    (∀ fs : List (String × JValue), fs ≠ [] →
      sIn ("\n🔥 **Итого:** " ++ pyStr ((JValue.obj fs).getOrElse "total_kcal" (.num 0)) ++ " ккал")
        (format_diet_string (.obj fs)) ∧
      format_diet_string (.obj fs) =
        "\n\n🍽 **План питания:**\n" ++
        slotText (.obj fs) "breakfast" "🍳 Завтрак" ++
        slotText (.obj fs) "lunch" "🍲 Обед" ++
        slotText (.obj fs) "dinner" "🥗 Ужин" ++
        slotText (.obj fs) "snack" "🥜 Перекус" ++ totalsLine (.obj fs)) := by
  refine ⟨rfl, ?_, ?_⟩
  · intro fs key title items it hmem hlk hit hobj
    have hfs : fs ≠ [] := by
      intro h
      subst h
      simp [List.lookup] at hlk
    cases items with
    | nil => cases hit
    | cons x xs =>
        constructor
        · apply sIn_slot_format hmem hfs
          rw [slotText_of_lookup _ hlk]
          exact sIn_slotSection (sIn_trans (sIn_name_itemLine hobj)
            (sIn_itemLine_itemsText hit))
        · apply sIn_slot_format hmem hfs
          rw [slotText_of_lookup _ hlk]
          exact sIn_slotSection (sIn_trans (sIn_kcal_itemLine hobj)
            (sIn_itemLine_itemsText hit))
  · intro fs hfs
    constructor
    · rw [format_diet_string_obj hfs]
      apply sIn_append_left
      unfold totalsLine
      have hB : (" ккал (Б: " : String) = " ккал" ++ " (Б: " := rfl
      rw [hB]
      apply sIn_append_right
      apply sIn_append_right
      apply sIn_append_right
      apply sIn_append_right
      apply sIn_append_right
      apply sIn_append_right
      exact sIn_front_pair _ _ _
    · exact format_diet_string_obj hfs

/-- Witness for C10 on a concrete one-item plan. -/
theorem formatter_total_and_complete_witness :
    sIn (pyStr ((JValue.obj [("name", .str "Овсянка"), ("grams", .num 250),
        ("kcal", .num 300)]).getOrElse "name" (.str "Блюдо")))
      (format_diet_string (.obj [("breakfast",
        .arr [.obj [("name", .str "Овсянка"), ("grams", .num 250), ("kcal", .num 300)]]),
        ("total_kcal", .num 300)])) :=
  (formatter_total_and_complete.2.1
    [("breakfast",
      .arr [.obj [("name", .str "Овсянка"), ("grams", .num 250), ("kcal", .num 300)]]),
     ("total_kcal", .num 300)]
    "breakfast" "🍳 Завтрак"
    [.obj [("name", .str "Овсянка"), ("grams", .num 250), ("kcal", .num 300)]]
    (.obj [("name", .str "Овсянка"), ("grams", .num 250), ("kcal", .num 300)])
    (by decide) rfl (List.mem_cons_self _ _) rfl).1

/-- C6 counterexample: on the claim's reference inputs the computed
target is 2079, not 2080 (`int(2447 * 0.85)` truncates 2079.95 to 2079). -/
theorem target_calories_not_2080 :
    (calcTargets none "male" 80 180 30 8000 true false).target_calories = 2079 ∧
    (calcTargets none "male" 80 180 30 8000 true false).target_calories ≠ 2080 := by
  rw [calcTargets_male_example]
  exact ⟨rfl, by decide⟩

/-- C6 (amended): on the reference inputs BMR is 1780 (Mifflin-St Jeor +5
form), the activity multiplier is 1.375, TDEE is 2447 and the target is
`floor(2447 * 0.85) = 2079`; the floor at BMR is not triggered since
2079 is not below 1780. -/
theorem calorie_target_values :
    (calcTargets none "male" 80 180 30 8000 true false).bmr = 1780 ∧
    (calcTargets none "male" 80 180 30 8000 true false).activity_factor = 11 / 8 ∧
    (calcTargets none "male" 80 180 30 8000 true false).tdee = 2447 ∧
    (calcTargets none "male" 80 180 30 8000 true false).target_calories =
      pyInt ((2447 : ℚ) * (17 / 20)) ∧
    ¬ ((2079 : ℚ) < 1780) := by
  have h2 : pyInt ((2447 : ℚ) * (17 / 20)) = 2079 := by
    rw [pyInt_eq_floor (by norm_num), Int.floor_eq_iff]
    norm_num
  rw [calcTargets_male_example, h2]
  refine ⟨rfl, rfl, rfl, rfl, by norm_num⟩

/-- C8 counterexample: the classifier answering with the English label
"Diet" (or "Metrics") routes to the General scenario, so the substring
matching is not bilingual for the ModifyOrAsk and Metrics intents. -/
theorem english_diet_label_routes_general :
    routeOf "Diet" = Scenario.general ∧
    routeOf "Metrics" = Scenario.general ∧
    Scenario.general ≠ Scenario.dieta ∧
    Scenario.general ≠ Scenario.metrics := by
  refine ⟨rfl, rfl, by decide, by decide⟩

/-- C8 (amended): routing is substring-based; the Generate intent matches
either of two language variants ("Генерация"/"Generat"), while ModifyOrAsk
and Metrics match only their Russian labels; a failed Gateway call (and any
unrecognized string) routes to the General scenario. -/
theorem routing_substring_characterization :
    routeOf (classifierText none) = Scenario.general ∧
    classifierText none = "Общее" ∧
    (∀ s, strIn "Генерация" s = true → routeOf s = Scenario.generation) ∧
    (∀ s, strIn "Generat" s = true → routeOf s = Scenario.generation) ∧
    (∀ s, strIn "Генерация" s = false → strIn "Generat" s = false →
      strIn "Диета" s = true → routeOf s = Scenario.dieta) ∧
    (∀ s, strIn "Генерация" s = false → strIn "Generat" s = false →
      strIn "Диета" s = false → strIn "Показатели" s = true →
      routeOf s = Scenario.metrics) ∧
    (∀ s, strIn "Генерация" s = false → strIn "Generat" s = false →
      strIn "Диета" s = false → strIn "Показатели" s = false →
      routeOf s = Scenario.general) := by
  refine ⟨rfl, rfl, ?_, ?_, ?_, ?_, ?_⟩
  · intro s h
    simp [routeOf, h]
  · intro s h
    simp [routeOf, h]
  · intro s h1 h2 h3
    simp [routeOf, h1, h2, h3]
  · intro s h1 h2 h3 h4
    simp [routeOf, h1, h2, h3, h4]
  · intro s h1 h2 h3 h4
    simp [routeOf, h1, h2, h3, h4]

/-- Witness for C8 (amended): each matching rule applied at a concrete
classifier reply. -/
theorem routing_substring_characterization_witness :
    routeOf "Генерация диеты" = Scenario.generation ∧
    routeOf "Generate" = Scenario.generation ∧
    routeOf "Диета" = Scenario.dieta ∧
    routeOf "Показатели" = Scenario.metrics ∧
    routeOf "что-то ещё" = Scenario.general :=
  ⟨routing_substring_characterization.2.2.1 "Генерация диеты" (by decide),
   routing_substring_characterization.2.2.2.1 "Generate" (by decide),
   routing_substring_characterization.2.2.2.2.1 "Диета" (by decide) (by decide) (by decide),
   routing_substring_characterization.2.2.2.2.2.1 "Показатели"
     (by decide) (by decide) (by decide) (by decide),
   routing_substring_characterization.2.2.2.2.2.2 "что-то ещё"
     (by decide) (by decide) (by decide) (by decide)⟩

/-- C2 counterexample: an update whose `diet_plan` has `lunch: null`
stores `null` (the serialization of Python `None`) in the lunch column,
not the empty list — a present wrong-typed slot is not coerced. -/
theorem null_slot_not_coerced_counterexample :
    ((handleDieta wDb ⟨some 1, []⟩ 1 [] (some "RESP")
      (fun _ => some (.obj [("action", .str "update"), ("text", .str "Ок"),
        ("diet_plan", .obj [
          ("breakfast", .arr [.obj [("name", .str "Каша"), ("kcal", .num 300)]]),
          ("lunch", .null),
          ("dinner", .arr [.obj [("name", .str "Курица"), ("kcal", .num 400)]]),
          ("snack", .arr [.obj [("name", .str "Орехи"), ("kcal", .num 200)]]),
          ("total_kcal", .num 900)])]))).db.diets.map DietRow.lunch = [JValue.null]) ∧
    JValue.null ≠ JValue.arr [] :=
  ⟨rfl, fun h => JValue.noConfusion h⟩

/-- C2 (amended): when an update is applied, each slot column receives the
plan's own value for that key — an absent slot becomes the empty list, but
a present wrong-typed value (e.g. null) is stored as-is — and each numeric
total independently receives the plan's value with a null fallback, so one
malformed slot never aborts or corrupts the other three. -/
theorem update_slot_fields_independent (db : Db) (sess : SessionState)
    (uid : Nat) (hist : List Turn) (s : String) (parse : String → Option JValue)
    (row : DietRow) (fs pfs : List (String × JValue))
    (hrow : currentDiet db.diets uid = some row)
    (hs : s ≠ "")
    (hparse : parse s = some (.obj fs))
    (haction : fs.lookup "action" = some (.str "update"))
    (hdp : fs.lookup "diet_plan" = some (.obj pfs))
    (hne : pfs ≠ []) :
    (handleDieta db sess uid hist (some s) parse).db =
      updateCurrent db row.id (.obj pfs) ∧
    (∀ d : DietRow,
      (applyPlan d (.obj pfs)).breakfast = (JValue.obj pfs).getOrElse "breakfast" (.arr []) ∧
      (applyPlan d (.obj pfs)).lunch = (JValue.obj pfs).getOrElse "lunch" (.arr []) ∧
      (applyPlan d (.obj pfs)).dinner = (JValue.obj pfs).getOrElse "dinner" (.arr []) ∧
      (applyPlan d (.obj pfs)).snack = (JValue.obj pfs).getOrElse "snack" (.arr []) ∧
      (applyPlan d (.obj pfs)).total_kcal = (JValue.obj pfs).getOpt "total_kcal" ∧
      (applyPlan d (.obj pfs)).protein = (JValue.obj pfs).getOpt "protein" ∧
      (applyPlan d (.obj pfs)).fat = (JValue.obj pfs).getOpt "fat" ∧
      (applyPlan d (.obj pfs)).carbs = (JValue.obj pfs).getOpt "carbs") ∧
    (∀ key : String, pfs.lookup key = none →
      (JValue.obj pfs).getOrElse key (.arr []) = .arr []) := by
  have hplan : secondPass parse ((JValue.obj fs).getOpt "diet_plan") = .obj pfs := by
    simp [JValue.getOpt, JValue.getOrElse, JValue.lookup, hdp, secondPass]
  refine ⟨?_, ?_, ?_⟩
  · rw [handleDieta_update_success hrow hs hparse haction hplan hne]
  · intro d
    exact ⟨rfl, rfl, rfl, rfl, rfl, rfl, rfl, rfl⟩
  · intro key h
    simp [JValue.getOrElse, JValue.lookup, h]

/-- Witness for C2 (amended) on a plan with an absent lunch slot. -/
theorem update_slot_fields_independent_witness :
    (handleDieta wDb ⟨some 1, []⟩ 1 [] (some "RESP")
      (fun _ => some (.obj [("action", .str "update"),
        ("diet_plan", .obj [
          ("breakfast", .arr [.obj [("name", .str "Каша"), ("kcal", .num 300)]]),
          ("total_kcal", .num 300)])]))).db =
      updateCurrent wDb 7 (.obj [
        ("breakfast", .arr [.obj [("name", .str "Каша"), ("kcal", .num 300)]]),
        ("total_kcal", .num 300)]) ∧
    (JValue.obj [
        ("breakfast", .arr [.obj [("name", .str "Каша"), ("kcal", .num 300)]]),
        ("total_kcal", .num 300)]).getOrElse "lunch" (.arr []) = .arr [] := by
  have h := update_slot_fields_independent wDb ⟨some 1, []⟩ 1 [] "RESP"
    (fun _ => some (.obj [("action", .str "update"),
      ("diet_plan", .obj [
        ("breakfast", .arr [.obj [("name", .str "Каша"), ("kcal", .num 300)]]),
        ("total_kcal", .num 300)])]))
    wRow
    [("action", .str "update"),
      ("diet_plan", .obj [
        ("breakfast", .arr [.obj [("name", .str "Каша"), ("kcal", .num 300)]]),
        ("total_kcal", .num 300)])]
    [("breakfast", .arr [.obj [("name", .str "Каша"), ("kcal", .num 300)]]),
      ("total_kcal", .num 300)]
    rfl (by decide) rfl rfl rfl (List.cons_ne_nil _ _)
  exact ⟨h.1, h.2.2 "lunch" rfl⟩

/-- C4: a successful update is a complete replacement: whatever the old
row's slots held, the resulting row's breakfast is exactly the new plan's
breakfast list, and every slot and total of the overwritten row is a
function of the new plan alone, never of the old record. -/
theorem update_replaces_wholesale (db : Db) (sess : SessionState)
    (uid : Nat) (hist : List Turn) (s : String) (parse : String → Option JValue)
    (row : DietRow) (fs pfs : List (String × JValue)) (B : List JValue)
    (hrow : currentDiet db.diets uid = some row)
    (hs : s ≠ "")
    (hparse : parse s = some (.obj fs))
    (haction : fs.lookup "action" = some (.str "update"))
    (hdp : fs.lookup "diet_plan" = some (.obj pfs))
    (hne : pfs ≠ [])
    (hB : pfs.lookup "breakfast" = some (.arr B)) :
    (handleDieta db sess uid hist (some s) parse).db =
      updateCurrent db row.id (.obj pfs) ∧
    (∀ d : DietRow, (applyPlan d (.obj pfs)).breakfast = .arr B) ∧
    (∀ d d' : DietRow,
      (applyPlan d (.obj pfs)).breakfast = (applyPlan d' (.obj pfs)).breakfast ∧
      (applyPlan d (.obj pfs)).lunch = (applyPlan d' (.obj pfs)).lunch ∧
      (applyPlan d (.obj pfs)).dinner = (applyPlan d' (.obj pfs)).dinner ∧
      (applyPlan d (.obj pfs)).snack = (applyPlan d' (.obj pfs)).snack ∧
      (applyPlan d (.obj pfs)).total_kcal = (applyPlan d' (.obj pfs)).total_kcal ∧
      (applyPlan d (.obj pfs)).protein = (applyPlan d' (.obj pfs)).protein ∧
      (applyPlan d (.obj pfs)).fat = (applyPlan d' (.obj pfs)).fat ∧
      (applyPlan d (.obj pfs)).carbs = (applyPlan d' (.obj pfs)).carbs) := by
  have hplan : secondPass parse ((JValue.obj fs).getOpt "diet_plan") = .obj pfs := by
    simp [JValue.getOpt, JValue.getOrElse, JValue.lookup, hdp, secondPass]
  refine ⟨?_, ?_, ?_⟩
  · rw [handleDieta_update_success hrow hs hparse haction hplan hne]
  · intro d
    simp [applyPlan, JValue.getOrElse, JValue.lookup, hB]
  · intro d d'
    exact ⟨rfl, rfl, rfl, rfl, rfl, rfl, rfl, rfl⟩

/-- Witness for C4: breakfast `[A]` is replaced by exactly `[B]`. -/
theorem update_replaces_wholesale_witness :
    (handleDieta wDb ⟨some 1, []⟩ 1 [] (some "RESP")
      (fun _ => some (.obj [("action", .str "update"),
        ("diet_plan", .obj [("breakfast", .arr [.str "B"])])]))).db =
      updateCurrent wDb 7 (.obj [("breakfast", .arr [.str "B"])]) ∧
    (applyPlan wRow (.obj [("breakfast", .arr [.str "B"])])).breakfast =
      .arr [.str "B"] := by
  have h := update_replaces_wholesale wDb ⟨some 1, []⟩ 1 [] "RESP"
    (fun _ => some (.obj [("action", .str "update"),
      ("diet_plan", .obj [("breakfast", .arr [.str "B"])])]))
    wRow
    [("action", .str "update"),
      ("diet_plan", .obj [("breakfast", .arr [.str "B"])])]
    [("breakfast", .arr [.str "B"])] [.str "B"]
    rfl (by decide) rfl rfl rfl (List.cons_ne_nil _ _) rfl
  exact ⟨h.1, h.2.1 wRow⟩

/-- C3: after any non-empty sequence of successful Generate calls for one
user and one date, exactly one DietRecord exists for that (user, date)
pair — delete-then-insert, never accumulation — and its contents are built
from the last successfully parsed plan. -/
theorem generate_single_record_per_day (db : Db) (sess : SessionState)
    (uid : Nat) (force : Bool) (today : Date) (tIdx : Nat)
    (resps : List (Option JValue))
    (hne : resps ≠ [])
    (hsucc : (generateSeq db sess uid force today tIdx resps).results.all
      GenResult.isSuccess = true) :
    ∃ data : JValue, resps.getLast? = some (some data) ∧
      ∃ idx : Nat,
        ((generateSeq db sess uid force today tIdx resps).db.diets.filter
          (fun d => d.user_id == uid && d.dateIdx == tIdx)) =
        [newDietRow idx uid tIdx (data.getOpt "diet_plan")] := by
  induction resps generalizing db sess with
  | nil => exact absurd rfl hne
  | cons r rs ih =>
      cases rs with
      | nil =>
          simp only [generateSeq, List.all_cons, List.all_nil, Bool.and_true] at hsucc ⊢
          obtain ⟨data, hr, hdiets⟩ := generate_success_shape db sess uid force today tIdx r hsucc
          refine ⟨data, by rw [hr]; rfl, db.next_diet_id, ?_⟩
          rw [hdiets]
          exact filter_delete_insert _ _ _ (by simp [newDietRow])
      | cons r' rs' =>
          rw [generateSeq] at hsucc ⊢
          simp only [List.all_cons, Bool.and_eq_true] at hsucc
          obtain ⟨data, hlast, idx, hfilter⟩ := ih _ _ (List.cons_ne_nil _ _) hsucc.2
          exact ⟨data, by rw [List.getLast?_cons_cons]; exact hlast, idx, hfilter⟩

/-- A user with no recorded data, for the Generate witnesses. -/
def gUser : UserRow := ⟨1, some "Иван", some "male", none, none, none, none, none⟩

/-- A database with that user and a pre-existing diet row for day 500. -/
def gDb : Db :=
  ⟨[gUser], [], [], [],
   [⟨3, 1, 500, .arr [], .arr [], .arr [], .arr [], .null, .null, .null, .null⟩], 10⟩

/-- A well-formed Gateway reply for the Generate witnesses. -/
def gResp (j : String) : JValue :=
  .obj [("justification", .str j),
        ("diet_plan", .obj [
          ("breakfast", .arr [.obj [("name", .str "Еда"), ("kcal", .num 600)]]),
          ("total_kcal", .num 1800)])]

/-- Witness for C3: two successful forced-basic Generate calls on the same
day leave exactly one (user, day) record, built from the second reply. -/
theorem generate_single_record_per_day_witness :
    ∃ data : JValue,
      [some (gResp "Первый"), some (gResp "Второй")].getLast? = some (some data) ∧
      ∃ idx : Nat,
        ((generateSeq gDb ⟨some 1, []⟩ 1 true ⟨2026, 10, 12⟩ 500
          [some (gResp "Первый"), some (gResp "Второй")]).db.diets.filter
            (fun d => d.user_id == 1 && d.dateIdx == 500)) =
        [newDietRow idx 1 500 (data.getOpt "diet_plan")] :=
  generate_single_record_per_day gDb ⟨some 1, []⟩ 1 true ⟨2026, 10, 12⟩ 500
    [some (gResp "Первый"), some (gResp "Второй")] (List.cons_ne_nil _ _) rfl

/-- C7 counterexample: with missing data and the force-estimate path taken,
the reply text is whatever the Gateway produced — here a justification with
no estimate marker — so the code does not itself mark the plan as an
estimate (it only instructs the model to, via the prompt note). -/
theorem estimate_reply_unmarked_counterexample :
    ((generate_diet_for_user gDb ⟨some 1, []⟩ 1 true ⟨2026, 10, 12⟩ 500
        (some (gResp "Вот твой рацион на день."))).result.isSuccess = true) ∧
    ((generate_diet_for_user gDb ⟨some 1, []⟩ 1 true ⟨2026, 10, 12⟩ 500
        (some (gResp "Вот твой рацион на день."))).is_estimation = true) ∧
    strIn "базов" ((generate_diet_for_user gDb ⟨some 1, []⟩ 1 true ⟨2026, 10, 12⟩ 500
        (some (gResp "Вот твой рацион на день."))).result.fullTextD) = false ∧
    strIn "оцен" ((generate_diet_for_user gDb ⟨some 1, []⟩ 1 true ⟨2026, 10, 12⟩ 500
        (some (gResp "Вот твой рацион на день."))).result.fullTextD) = false ∧
    strIn "примерн" ((generate_diet_for_user gDb ⟨some 1, []⟩ 1 true ⟨2026, 10, 12⟩ 500
        (some (gResp "Вот твой рацион на день."))).result.fullTextD) = false ∧
    strIn "estimate" ((generate_diet_for_user gDb ⟨some 1, []⟩ 1 true ⟨2026, 10, 12⟩ 500
        (some (gResp "Вот твой рацион на день."))).result.fullTextD) = false ∧
    strIn "средн" ((generate_diet_for_user gDb ⟨some 1, []⟩ 1 true ⟨2026, 10, 12⟩ 500
        (some (gResp "Вот твой рацион на день."))).result.fullTextD) = false :=
  ⟨rfl, rfl, rfl, rfl, rfl, rfl, rfl⟩

/-- A non-empty missing-data list means not all three inputs were present. -/
theorem missingList_ne_nil_not_all {w h : Option ℚ} {a : Option Int}
    (hmiss : missingList w h a ≠ []) :
    (truthyQ w && truthyQ h && truthyI a) = false := by
  cases hw : truthyQ w <;> cases hh : truthyQ h <;> cases ha : truthyI a <;>
    simp [missingList, hw, hh, ha] at hmiss ⊢

/-- C7 (amended): with missing weight/height/age and no force-estimate
request, Generate returns the request-for-data message, makes no Gateway
diet call and writes nothing; on the force-estimate path the Gateway is
called with sex-specific default weight/height (age default 30) substituted,
and the prompt carries the mandatory estimation note instructing the model
to label the plan as basic — the reply text itself is Gateway-produced. -/
theorem missing_data_gate (db : Db) (sess : SessionState) (uid : Nat)
    (today : Date) (tIdx : Nat) (r : Option JValue) (user : UserRow)
    (w0 h0 : Option ℚ) (a0 : Option Int) (g : String)
    (hu : User_query_get db uid = some user)
    (hw0 : resolvedWeight db user (buildContext db user today tIdx) = w0)
    (hh0 : (buildContext db user today tIdx).metrics.height = h0)
    (ha0 : (buildContext db user today tIdx).profile.age = a0)
    (hg : (buildContext db user today tIdx).profile.gender = g)
    (hmiss : missingList w0 h0 a0 ≠ []) :
    ((generate_diet_for_user db sess uid false today tIdx r).result =
        .requireData (missingDataMsg (missingList w0 h0 a0)) ∧
      (generate_diet_for_user db sess uid false today tIdx r).db = db ∧
      (generate_diet_for_user db sess uid false today tIdx r).gatewayCalled = false) ∧
    ((generate_diet_for_user db sess uid true today tIdx r).gatewayCalled = true ∧
      (generate_diet_for_user db sess uid true today tIdx r).is_estimation = true ∧
      (generate_diet_for_user db sess uid true today tIdx r).estimationNote =
        estimationNoteText ∧
      (generate_diet_for_user db sess uid true today tIdx r).weightUsed =
        some (defaultedWeight g w0) ∧
      (generate_diet_for_user db sess uid true today tIdx r).heightUsed =
        some (defaultedHeight g h0) ∧
      (generate_diet_for_user db sess uid true today tIdx r).ageUsed =
        some (defaultedAge a0) ∧
      (truthyQ w0 = false → defaultedWeight g w0 = if g ≠ "female" then 70 else 60) ∧
      (truthyQ h0 = false → defaultedHeight g h0 = if g ≠ "female" then 175 else 165) ∧
      (truthyI a0 = false → defaultedAge a0 = 30)) := by
  have hne : (missingList w0 h0 a0).isEmpty = false := by
    cases hm : missingList w0 h0 a0 with
    | nil => exact absurd rfl (hm ▸ hmiss)
    | cons x xs => rfl
  have hest : (truthyQ w0 && truthyQ h0 && truthyI a0) = false :=
    missingList_ne_nil_not_all hmiss
  constructor
  · unfold generate_diet_for_user
    rw [hu]
    simp only [hw0, hh0, ha0, hg]
    rw [if_pos ⟨by simp [hne], by simp⟩]
    exact ⟨rfl, rfl, rfl⟩
  · unfold generate_diet_for_user
    rw [hu]
    simp only [hw0, hh0, ha0, hg]
    rw [if_neg (by simp)]
    refine ⟨rfl, ?_, ?_, rfl, rfl, rfl, ?_, ?_, ?_⟩
    · simp [processDietResponse, hest]
    · simp [processDietResponse, hest, estimationNoteText]
    · intro hw
      simp [defaultedWeight, hw]
    · intro hh
      simp [defaultedHeight, hh]
    · intro ha
      simp [defaultedAge, ha]

/-- Witness for C7: the user of `gDb` has no recorded weight, height or
age; without force the gate answers with the three-field request and calls
no Gateway; with force the defaults for a male user are substituted. -/
theorem missing_data_gate_witness :
    ((generate_diet_for_user gDb ⟨some 1, []⟩ 1 false ⟨2026, 10, 12⟩ 500 none).result =
        .requireData (missingDataMsg (missingList none none none)) ∧
      (generate_diet_for_user gDb ⟨some 1, []⟩ 1 false ⟨2026, 10, 12⟩ 500 none).db = gDb ∧
      (generate_diet_for_user gDb ⟨some 1, []⟩ 1 false ⟨2026, 10, 12⟩ 500 none).gatewayCalled =
        false) ∧
    ((generate_diet_for_user gDb ⟨some 1, []⟩ 1 true ⟨2026, 10, 12⟩ 500 none).gatewayCalled =
        true ∧
      (generate_diet_for_user gDb ⟨some 1, []⟩ 1 true ⟨2026, 10, 12⟩ 500 none).is_estimation =
        true ∧
      (generate_diet_for_user gDb ⟨some 1, []⟩ 1 true ⟨2026, 10, 12⟩ 500 none).estimationNote =
        estimationNoteText ∧
      (generate_diet_for_user gDb ⟨some 1, []⟩ 1 true ⟨2026, 10, 12⟩ 500 none).weightUsed =
        some (defaultedWeight "male" none) ∧
      (generate_diet_for_user gDb ⟨some 1, []⟩ 1 true ⟨2026, 10, 12⟩ 500 none).heightUsed =
        some (defaultedHeight "male" none) ∧
      (generate_diet_for_user gDb ⟨some 1, []⟩ 1 true ⟨2026, 10, 12⟩ 500 none).ageUsed =
        some (defaultedAge none) ∧
      (truthyQ none = false → defaultedWeight "male" none = if "male" ≠ "female" then 70 else 60) ∧
      (truthyQ none = false → defaultedHeight "male" none = if "male" ≠ "female" then 175 else 165) ∧
      (truthyI none = false → defaultedAge none = 30)) :=
  missing_data_gate gDb ⟨some 1, []⟩ 1 ⟨2026, 10, 12⟩ 500 none gUser
    none none none "male" rfl rfl rfl rfl rfl (by decide)

/-- The ModifyOrAsk scenario answers 200/"ai" on every path. -/
theorem handleDieta_ok (db : Db) (sess : SessionState) (uid : Nat)
    (hist : List Turn) (resp? : Option String) (parse : String → Option JValue) :
    ∃ c : JValue, (handleDieta db sess uid hist resp? parse).resp = .ok ⟨200, "ai", c⟩ := by
  unfold handleDieta
  split
  · exact ⟨_, rfl⟩
  · split
    · exact ⟨_, rfl⟩
    · split
      · exact ⟨_, rfl⟩
      · split
        · dsimp only
          split
          · split
            · exact ⟨_, rfl⟩
            · exact ⟨_, rfl⟩
          · exact ⟨_, rfl⟩
        · exact ⟨_, rfl⟩

/-- C9 counterexample: an authenticated session whose user row no longer
exists, with the classifier routing to the General scenario, hits the
`user_context['profile']` subscript on the empty context — an uncaught
KeyError (a 5xx to the chat caller), not a chat-shaped 200. -/
theorem missing_user_general_keyerror :
    (handle_chat ⟨[], [], [], [], [], 0⟩ ⟨some 1, []⟩
      ⟨some "Общее", none, none, none, none, fun _ => none⟩
      "привет" ⟨2026, 10, 12⟩ 500).resp = .error "KeyError" := rfl

/-- C9 (amended): for every authenticated chat request with a non-empty
message whose user row exists, the handler returns a chat-shaped
role/content response with status 200 on every reachable path — Gateway
failures, malformed structured output and missing user data are all
surfaced as soft messages. -/
theorem chat_always_200_for_existing_user (db : Db) (sess : SessionState)
    (gw : Gateway) (message : String) (today : Date) (tIdx : Nat) (uid : Nat)
    (hauth : sess.user_id = some uid)
    (huser : (User_query_get db uid).isSome = true)
    (hmsg : pyStrip message ≠ "") :
    ∃ c : JValue, (handle_chat db sess gw message today tIdx).resp =
      .ok ⟨200, "ai", c⟩ := by
  obtain ⟨u, hu⟩ := Option.isSome_iff_exists.mp huser
  simp only [handle_chat]
  rw [if_neg hmsg]
  simp only [hauth]
  split
  · split
    · exact ⟨_, rfl⟩
    · exact ⟨_, rfl⟩
    · exact ⟨_, rfl⟩
  · exact handleDieta_ok _ _ _ _ _ _
  · split
    · exact ⟨_, rfl⟩
    · cases gw.metricsReply
      · exact ⟨_, rfl⟩
      · exact ⟨_, rfl⟩
  · simp only [get_full_user_context, hu, Option.map]
    cases gw.generalReply
    · exact ⟨_, rfl⟩
    · exact ⟨_, rfl⟩

/-- Witness for C9 (amended) on a concrete request routed to the General
scenario for an existing user. -/
theorem chat_always_200_for_existing_user_witness :
    ∃ c : JValue, (handle_chat gDb ⟨some 1, []⟩
      ⟨some "Общее", none, none, some "Привет! Чем помочь?", none, fun _ => none⟩
      "привет" ⟨2026, 10, 12⟩ 500).resp = .ok ⟨200, "ai", c⟩ :=
  chat_always_200_for_existing_user gDb ⟨some 1, []⟩
    ⟨some "Общее", none, none, some "Привет! Чем помочь?", none, fun _ => none⟩
    "привет" ⟨2026, 10, 12⟩ 500 1 rfl rfl (by decide)

end Sola
